import Mathlib

/-!
Shallow embedding of the query-construction, export-dispatch and validation
logic of the qgis_plugin_gpq_downloader repository.  The package module
src/gpq_downloader/utils.py and the single-file module
src/qgis_plugin_gpq_downloader.py each define a Worker and a
ValidationWorker; both are modelled here (namespaces Gpq.Utils and
Gpq.Plugin).  Database calls, Qt signals and file input/output are
abstracted: the environment supplies the values the engine would return
(schema rows, row counts, sampled average feature size, parquet key/value
metadata), and a run is modelled as the list of signals the worker emits
together with flags recording whether the COPY export statement was
executed and whether the cleanup path (table drop and connection close in
the finally block) ran.
-/

namespace Gpq

/-- Containment of one character list in another, modelling the Python
substring operator applied to the underlying character sequences. -/
def listContains (sub : List Char) : List Char → Bool
  | [] => sub.isEmpty
  | c :: rest => sub.isPrefixOf (c :: rest) || listContains sub rest

/-- Python substring test on strings. -/
def pyIn (sub s : String) : Bool := listContains sub.data s.data

/-- Python endswith on strings (case sensitive, exactly as the method). -/
def pyEndsWith (s suffix : String) : Bool := suffix.data.isSuffixOf s.data

/-- Python lower() for the ASCII strings appearing in this program. -/
def pyLower (s : String) : String := ⟨s.data.map Char.toLower⟩

/-- Python upper() for the ASCII strings appearing in this program. -/
def pyUpper (s : String) : String := ⟨s.data.map Char.toUpper⟩

/-- Python truthiness of a string: nonempty. -/
def pyTruthy (s : String) : Bool := !s.data.isEmpty

/-- Python split on a single-character separator, on character lists. -/
def splitOnChar (sep : Char) : List Char → List (List Char)
  | [] => [[]]
  | c :: rest =>
    match splitOnChar sep rest with
    | [] => [[]]
    | h :: t => if c == sep then [] :: h :: t else (c :: h) :: t

/-- The file extension the export dispatcher branches on:
output_file.lower().split(".")[-1] in both Worker.run implementations. -/
def last_extension (s : String) : String :=
  ⟨(splitOnChar '.' (pyLower s).data).getLastD []⟩

/-- One row of the DESCRIBE result: column name and declared type. -/
structure SchemaColumn where
  name : String
  colType : String
deriving DecidableEq

/-- A bounding box already normalized to EPSG 4326, as consumed by
Worker.run after transform_bbox_to_4326. -/
structure Rect where
  xMin : ℚ
  yMin : ℚ
  xMax : ℚ
  yMax : ℚ
deriving DecidableEq

/-- One entry of the generated SELECT list.  The constructors record the
per-column coercions of process_schema_columns: TO_JSON for struct or map
types, array_to_string for array types, CAST AS INTEGER for UTINYINT, and
the bare quoted column otherwise. -/
inductive SelectEntry
  | toJson (col : String)
  | arrayToString (col : String)
  | castInteger (col : String)
  | plain (col : String)
deriving DecidableEq

/-- The generated SELECT clause.  star is the untouched SELECT * used for
Parquet targets; withName is the Overture special case that prepends the
synthetic name column derived from names.primary; plainCols is the plain
joined column list. -/
inductive SelectQuery
  | star
  | withName (cols : List SelectEntry)
  | plainCols (cols : List SelectEntry)
deriving DecidableEq

/-- Whether the select clause carries the prepended synthetic name column. -/
def SelectQuery.hasSyntheticName : SelectQuery → Bool
  | .withName _ => true
  | _ => false

/-- The generated WHERE clause.  bboxRange col xLo xHi yLo yHi records the
conjunctive predicate col.xmin BETWEEN xLo AND xHi AND col.ymin BETWEEN
yLo AND yHi (only the minimum fields of the bbox struct are tested);
stIntersects records the literal closed polygon ring passed to
ST_GeomFromText inside ST_Intersects. -/
inductive WhereClause
  | bboxRange (col : String) (xLo xHi yLo yHi : ℚ)
  | stIntersects (ring : List (ℚ × ℚ))
deriving DecidableEq

/-- Satisfaction of the range predicate by a feature whose bbox struct has
minimum fields fx and fy.  The stIntersects fallback is not a range
predicate, so it is mapped to False here. -/
def rangePredHolds : WhereClause → ℚ → ℚ → Prop
  | .bboxRange _ xLo xHi yLo yHi, fx, fy =>
      (xLo ≤ fx ∧ fx ≤ xHi) ∧ (yLo ≤ fy ∧ fy ≤ yHi)
  | .stIntersects _, _, _ => False

/-- The signals a Worker can emit (pyqtSignal attributes of the class). -/
inductive Signal
  | progress (msg : String)
  | error (msg : String)
  | info (msg : String)
  | loadLayer (file : String)
  | finished
  | fileSizeWarning (mb : ℚ)
deriving DecidableEq

/-- Discriminator for error signals. -/
def isError : Signal → Bool
  | .error _ => true
  | _ => false

/-- Discriminator for info signals. -/
def isInfo : Signal → Bool
  | .info _ => true
  | _ => false

/-- Discriminator for the finished signal. -/
def isFinished : Signal → Bool
  | .finished => true
  | _ => false

/-- Discriminator for load_layer signals. -/
def isLoadLayerSig : Signal → Bool
  | .loadLayer _ => true
  | _ => false

/-- Discriminator for file_size_warning signals. -/
def isSizeWarning : Signal → Bool
  | .fileSizeWarning _ => true
  | _ => false

/-- The state a Worker is constructed with, plus the kill flag.  The kill
flag is set asynchronously by kill(); modelling it as a fixed boolean
describes a run in which cancellation happened before the step under
consideration, the strongest case for suppression claims. -/
structure WorkerInput where
  dataset_url : String
  output_file : String
  bbox_column : Option String
  killed : Bool
  size_warning_accepted : Bool
deriving DecidableEq

/-- The values the database engine returns during a run: the DESCRIBE
schema, the COUNT of the materialized table, and the sampled average
serialized feature length (none models a NULL average). -/
structure WorkerEnv where
  schema : List SchemaColumn
  row_count : Nat
  avg_feature_size : Option ℚ
deriving DecidableEq

/-- Observable outcome of Worker.run: emitted signals in order, whether a
COPY export statement was executed, and whether the finally cleanup ran. -/
structure RunOutcome where
  emitted : List Signal
  copy_executed : Bool
  cleanup_ran : Bool
deriving DecidableEq

namespace Utils

/-- The empty-result message of utils.py Worker.run (line 171). -/
def no_data_msg : String :=
  "No data found in the requested area. Check that your map extent overlaps with the data and/or expand your map extent."

/-- The unsupported-format message of Worker.run. -/
def unsupported_msg : String := "Unsupported file format."

/-- The DuckDB success message of Worker.run. -/
def duckdb_msg : String :=
  "Data has been successfully saved to DuckDB database.\n\nNote: QGIS does not currently support loading DuckDB files directly."

/-- Per-column body of Worker.process_schema_columns (utils.py lines
305-321): struct or map types are serialized with TO_JSON, array types are
flattened with array_to_string, UTINYINT is widened with CAST AS INTEGER,
every other column is passed through as the bare quoted name. -/
def process_column (r : SchemaColumn) : SelectEntry :=
  if pyIn "STRUCT" (pyUpper r.colType) || pyIn "MAP" (pyUpper r.colType) then
    .toJson r.name
  else if pyIn "[]" r.colType then
    .arrayToString r.name
  else if pyUpper r.colType == "UTINYINT" then
    .castInteger r.name
  else
    .plain r.name

/-- Worker.process_schema_columns (utils.py lines 302-322): one SELECT
entry per schema row, in schema order. -/
def process_schema_columns (schema : List SchemaColumn) : List SelectEntry :=
  schema.map process_column

/-- The SELECT clause construction of utils.py Worker.run (lines 122-133):
SELECT * for output files ending in .parquet, otherwise the processed
column list, with the synthetic name column prepended whenever the dataset
URL contains the substring overture (no check of the schema). -/
def build_select_query (output_file dataset_url : String)
    (schema : List SchemaColumn) : SelectQuery :=
  if !pyEndsWith output_file ".parquet" then
    let columns := process_schema_columns schema
    if pyIn "overture" dataset_url then .withName columns
    else .plainCols columns
  else .star

/-- The WHERE clause construction of utils.py Worker.run (lines 135-154).
A truthy bbox_column yields the range predicate on the xmin and ymin
fields of the bbox struct; otherwise the ST_Intersects fallback with the
closed five-point ring built from the corners of the transformed extent,
in the corner order of the source f-string. -/
def build_where_clause (bbox_column : Option String) (bbox : Rect) :
    WhereClause :=
  match bbox_column with
  | some c =>
    if pyTruthy c then
      .bboxRange c bbox.xMin bbox.xMax bbox.yMin bbox.yMax
    else
      .stIntersects [(bbox.xMin, bbox.yMin), (bbox.xMax, bbox.yMin),
        (bbox.xMax, bbox.yMax), (bbox.xMin, bbox.yMax), (bbox.xMin, bbox.yMin)]
  | none =>
    .stIntersects [(bbox.xMin, bbox.yMin), (bbox.xMax, bbox.yMin),
      (bbox.xMax, bbox.yMax), (bbox.xMin, bbox.yMax), (bbox.xMin, bbox.yMin)]

/-- Worker.estimate_file_size (utils.py lines 249-300) with the database
calls abstracted: row_count is the COUNT of the table and
avg_feature_size the AVG the sampling query returns (none for NULL).  The
sample size is min(100, row_count); a positive sample and truthy average
yield (row_count times average plus 50 plus row_count minus 1) bytes,
converted to megabytes; every other case returns 0. -/
def estimate_file_size (row_count : Nat) (avg_feature_size : Option ℚ) : ℚ :=
  let sample_size := min 100 row_count
  if 0 < sample_size then
    match avg_feature_size with
    | some a =>
      if a ≠ 0 then
        ((row_count : ℚ) * a + 50 + ((row_count - 1 : Nat) : ℚ)) / (1024 * 1024)
      else 0
    | none => 0
  else 0

/-- The export stage of utils.py Worker.run for non-DuckDB targets (lines
199-231): the progress emit, the format-option dispatch (parquet by
lowered extension, gpkg, fgb and geojson by case-sensitive endswith), the
COPY execution, and the post-copy killed checks and completion signals.
An unrecognized format emits the unsupported error and returns before any
COPY. -/
def run_export_stage (w : WorkerInput) (pre : List Signal) : RunOutcome :=
  let ext := last_extension w.output_file
  let s1 := pre ++ [.progress ("Exporting data to " ++ pyUpper ext ++ "...")]
  if ext == "parquet" || pyEndsWith w.output_file ".gpkg" ||
      pyEndsWith w.output_file ".fgb" || pyEndsWith w.output_file ".geojson" then
    if w.killed then ⟨s1, true, true⟩
    else
      ⟨s1 ++ (if pyEndsWith (pyLower w.output_file) ".duckdb" then
          [.info duckdb_msg] else [.loadLayer w.output_file]) ++ [.finished],
        true, true⟩
  else ⟨s1 ++ [.error unsupported_msg], false, true⟩

/-- Worker.run of utils.py (lines 90-244), from the initial progress
signals through the empty-result check, the DuckDB branch, the GeoJSON
size gate and the export stage, to the finally cleanup.  The environment
supplies the row count of the materialized table and the sampled average
feature size.  The cleanup_ran flag records the finally block. -/
def Worker.run (w : WorkerInput) (env : WorkerEnv) : RunOutcome :=
  let pre : List Signal :=
    [.progress "Connecting to database...", .progress "Loading spatial extension...",
     .progress "Preparing query...", .progress "Downloading data..."]
  if env.row_count = 0 then
    ⟨pre ++ [.error no_data_msg], false, true⟩
  else
    let pre2 := pre ++ [.progress "Processing data to requested format..."]
    let ext := last_extension w.output_file
    if ext == "duckdb" then
      let s1 := pre2 ++ [.progress "Saving to DuckDB database..."] ++
        (if !w.killed then [.info duckdb_msg] else [])
      if w.killed then ⟨s1, false, true⟩
      else
        ⟨s1 ++ (if pyEndsWith (pyLower w.output_file) ".duckdb" then
            [.info duckdb_msg] else [.loadLayer w.output_file]) ++ [.finished],
          false, true⟩
    else
      if pyEndsWith (pyLower w.output_file) ".geojson" then
        let est := estimate_file_size env.row_count env.avg_feature_size
        if est > 4096 ∧ w.size_warning_accepted = false then
          ⟨pre2 ++ [.fileSizeWarning est], false, true⟩
        else run_export_stage w pre2
      else run_export_stage w pre2

end Utils

/-- The decoded geo metadata blob of one parquet key/value entry, as seen
by ValidationWorker.check_bbox_metadata.  malformed stands for a value
whose decode, JSON load or path extraction raises; parsed carries the
value the JSON path query for columns.geometry.covering.bbox.xmin[0]
returns (none for a missing path). -/
inductive GeoBlob
  | malformed
  | parsed (bboxPathValue : Option String)
deriving DecidableEq

/-- One row of parquet_kv_metadata: a key and its decoded blob. -/
structure MetaEntry where
  key : String
  value : GeoBlob
deriving DecidableEq

/-- One preset dataset entry of the static catalog: an optional plain URL,
an optional URL template with a placeholder, and the optional
needs_validation flag (absent means validation required). -/
structure Preset where
  url : Option String
  url_template : Option String
  needs_validation_flag : Option Bool
deriving DecidableEq

/-- The result dictionary a ValidationWorker passes through its finished
signal.  with_schema records whether the dictionary carried the probed
schema (the preset short-circuit dictionary does not). -/
structure VDict where
  has_bbox : Bool
  bbox_column : Option String
  with_schema : Bool
deriving DecidableEq

/-- The signals a ValidationWorker can emit. -/
inductive VEvent
  | progress (msg : String)
  | finishedSig (success : Bool) (msg : String) (result : VDict)
  | needsBboxWarning
deriving DecidableEq

/-- The values the engine returns during validation: the DESCRIBE schema
and the parquet key/value metadata rows. -/
structure VEnv where
  schema : List SchemaColumn
  metadata : List MetaEntry
deriving DecidableEq

/-- Observable outcome of ValidationWorker.run: emitted events plus flags
recording whether the schema was probed and whether the geo metadata was
fetched and parsed. -/
structure VOutcome where
  events : List VEvent
  schema_probed : Bool
  metadata_probed : Bool
deriving DecidableEq

namespace Utils

/-- Python strip applied with a double-quote argument: drop leading and
trailing double-quote characters. -/
def strip_quotes (s : String) : String :=
  ⟨((s.data.dropWhile (· == '"')).reverse.dropWhile (· == '"')).reverse⟩

/-- ValidationWorker.check_bbox_metadata (utils.py lines 342-389).  The
loop scans the key/value rows; for each geo key a malformed blob has its
exception swallowed and the loop continues, a parsed blob with a truthy
path value returns that value stripped of double quotes, and anything
else falls through to the next row; exhaustion returns none. -/
def check_bbox_metadata : List MetaEntry → Option String
  | [] => none
  | e :: rest =>
    if e.key == "geo" then
      match e.value with
      | .malformed => check_bbox_metadata rest
      | .parsed res =>
        match res with
        | some s => if pyTruthy s then some (strip_quotes s) else check_bbox_metadata rest
        | none => check_bbox_metadata rest
    else check_bbox_metadata rest

/-- ValidationWorker.needs_validation (utils.py lines 445-462) over the
flattened preset catalog in iteration order: the first preset whose URL is
a substring of the dataset URL, or whose template prefix before the first
placeholder brace is a substring, decides via its needs_validation flag
(default true); no match means validation is required. -/
def needs_validation (presets : List Preset) (dataset_url : String) : Bool :=
  match presets with
  | [] => true
  | p :: rest =>
    if (match p.url with
        | some u => pyIn u dataset_url
        | none => false) then
      p.needs_validation_flag.getD true
    else if (match p.url_template with
        | some t => pyIn ⟨(splitOnChar '\x7b' t.data).headD []⟩ dataset_url
        | none => false) then
      p.needs_validation_flag.getD true
    else needs_validation rest dataset_url

/-- ValidationWorker.run (utils.py lines 391-443) on the happy path of the
engine calls: presets with needs_validation false short-circuit to a
successful finished emission with bbox column bbox and no probing; else
the schema is probed and a column whose lowered name is bbox with a
lowered type containing struct is selected; else the geo metadata is
parsed and a truthy result selected; else the needs_bbox_warning signal is
emitted and nothing is emitted on finished. -/
def ValidationWorker.run (presets : List Preset) (dataset_url : String)
    (env : VEnv) : VOutcome :=
  let pre : List VEvent := [.progress "Connecting to data source..."]
  if !needs_validation presets dataset_url then
    ⟨pre ++ [.finishedSig true "Validation successful" ⟨true, some "bbox", false⟩],
      false, false⟩
  else
    let pre2 := pre ++ [.progress "Checking data format..."]
    if env.schema.any (fun r =>
        pyLower r.name == "bbox" && pyIn "struct" (pyLower r.colType)) then
      ⟨pre2 ++ [.finishedSig true "Validation successful" ⟨true, some "bbox", true⟩],
        true, false⟩
    else
      match check_bbox_metadata env.metadata with
      | some c =>
        if pyTruthy c then
          ⟨pre2 ++ [.finishedSig true "Validation successful" ⟨true, some c, true⟩],
            true, true⟩
        else ⟨pre2 ++ [.needsBboxWarning], true, true⟩
      | none => ⟨pre2 ++ [.needsBboxWarning], true, true⟩

end Utils

namespace Plugin

/-- The empty-result message of the module-level Worker.run (line 255). -/
def no_data_msg : String :=
  "No data found in the requested area. Check that your map extent overlaps with the data and/or expand your map extent. Skipping to next dataset if available."

/-- The message of the Python error raised when the unsupported-format
branch leaves format_options unbound and the COPY line dereferences it. -/
def unbound_local_msg : String :=
  "local variable referenced before assignment: format_options"

/-- The SELECT clause construction of the module-level Worker.run (lines
192-217): SELECT * for output files ending in .parquet, otherwise the
processed column list, with the synthetic name column prepended when the
dataset URL contains overture and some schema column name contains names
as a substring.  The per-column loop is identical to
Utils.process_column. -/
def build_select_query (output_file dataset_url : String)
    (schema : List SchemaColumn) : SelectQuery :=
  if !pyEndsWith output_file ".parquet" then
    let columns := schema.map Utils.process_column
    if pyIn "overture" dataset_url &&
        schema.any (fun r => pyIn "names" r.name) then .withName columns
    else .plainCols columns
  else .star

/-- The module-level Worker.run (qgis_plugin_gpq_downloader.py lines
163-320) on the happy path of the engine calls up to the dispatch.  The
empty-result branch emits info and finished; the DuckDB branch mirrors
utils.py without the extra progress message; the format dispatch knows
only parquet, gpkg and fgb, and its else branch emits the unsupported
error without returning, so the following COPY line raises on the unbound
format_options and the exception handler emits a second error unless the
worker was killed. -/
def Worker.run (w : WorkerInput) (env : WorkerEnv) : RunOutcome :=
  let pre : List Signal :=
    [.progress "Connecting to database...", .progress "Loading spatial extension...",
     .progress "Preparing query...", .progress "Downloading data..."]
  if env.row_count = 0 then
    ⟨pre ++ [.info no_data_msg, .finished], false, true⟩
  else
    let pre2 := pre ++ [.progress "Processing data to requested format..."]
    let ext := last_extension w.output_file
    if ext == "duckdb" then
      let s1 := pre2 ++ (if !w.killed then [.info Utils.duckdb_msg] else [])
      if w.killed then ⟨s1, false, true⟩
      else
        ⟨s1 ++ (if pyEndsWith (pyLower w.output_file) ".duckdb" then
            [.info Utils.duckdb_msg] else [.loadLayer w.output_file]) ++ [.finished],
          false, true⟩
    else
      if ext == "parquet" || pyEndsWith w.output_file ".gpkg" ||
          pyEndsWith w.output_file ".fgb" then
        if w.killed then ⟨pre2, true, true⟩
        else
          ⟨pre2 ++ (if pyEndsWith (pyLower w.output_file) ".duckdb" then
              [.info Utils.duckdb_msg] else [.loadLayer w.output_file]) ++ [.finished],
            true, true⟩
      else
        let s1 := pre2 ++ [.error Utils.unsupported_msg]
        let s2 := if !w.killed then
            s1 ++ (if pyIn "No data found" unbound_local_msg then
              [.info ("No data found in the requested area for " ++ w.dataset_url ++
                ". Skipping to next dataset if available."), .finished]
            else [.error unbound_local_msg])
          else s1
        ⟨s2, false, true⟩

/-- The static preset catalog PRESET_DATASETS of
qgis_plugin_gpq_downloader.py (lines 20-106), flattened in the iteration
order of needs_validation: the overture family, then source_cooperative,
then other. -/
def PRESET_DATASETS : List Preset :=
  [⟨none, some "s3://overturemaps-us-west-2/release/2025-01-22.0/theme=buildings/type=building/*", some false⟩,
   ⟨none, some "s3://overturemaps-us-west-2/release/2025-01-22.0/theme=places/type=place/*", some false⟩,
   ⟨none, some "s3://overturemaps-us-west-2/release/2025-01-22.0/theme=transportation/type=segment/*", some false⟩,
   ⟨none, some "s3://overturemaps-us-west-2/release/2025-01-22.0/theme=addresses/type=*/*", some false⟩,
   ⟨none, some "s3://overturemaps-us-west-2/release/2025-01-22.0/theme=base/type=\x7bsubtype\x7d/*", some false⟩,
   ⟨none, some "s3://overturemaps-us-west-2/release/2025-01-22.0/theme=divisions/type=division_area/*", some false⟩,
   ⟨some "https://data.source.coop/planet/eu-field-boundaries/field_boundaries.parquet", none, some false⟩,
   ⟨some "https://data.source.coop/fiboa/us-usda-cropland/us_usda_cropland.parquet", none, some false⟩,
   ⟨some "https://data.source.coop/fiboa/us-ca-scm/us_ca_scm.parquet", none, some false⟩,
   ⟨some "s3://us-west-2.opendata.source.coop/vida/google-microsoft-osm-open-buildings/geoparquet/by_country/*/*.parquet", none, some false⟩,
   ⟨some "s3://us-west-2.opendata.source.coop/wherobots/usa-structures/geoparquet/*.parquet", none, some false⟩,
   ⟨some "s3://us-west-2.opendata.source.coop/fused/fsq-os-places/2025-01-10/places/*.parquet", none, some false⟩,
   ⟨some "https://data.source.coop/cholmes/nhd/NHDFlowline.parquet", none, some true⟩,
   ⟨some "hf://datasets/foursquare/fsq-os-places/release/dt=2025-01-10/places/parquet/*.parquet", none, some false⟩]

end Plugin

end Gpq

namespace Gpq

theorem splitOnChar_ne_nil (sep : Char) (l : List Char) : splitOnChar sep l ≠ [] := by
  cases l with
  | nil => simp [splitOnChar]
  | cons c rest =>
    simp only [splitOnChar]
    cases h : splitOnChar sep rest with
    | nil => simp
    | cons h2 t =>
      show (if (c == sep) = true then [] :: h2 :: t else (c :: h2) :: t) ≠ []
      by_cases hc : (c == sep) = true
      · rw [if_pos hc]; simp
      · rw [if_neg hc]; simp

theorem splitOnChar_sep_length (sep : Char) (l e : List Char) :
    2 ≤ (splitOnChar sep (l ++ sep :: e)).length := by
  induction l with
  | nil =>
    simp only [List.nil_append, splitOnChar]
    cases h : splitOnChar sep e with
    | nil => exact absurd h (splitOnChar_ne_nil sep e)
    | cons h2 t =>
      show 2 ≤ (if (sep == sep) = true then [] :: h2 :: t else (sep :: h2) :: t).length
      rw [if_pos (by simp)]
      simp
  | cons c rest ih =>
    simp only [List.cons_append, splitOnChar]
    cases h : splitOnChar sep (rest ++ sep :: e) with
    | nil => exact absurd h (splitOnChar_ne_nil sep _)
    | cons h2 t =>
      rw [h] at ih
      simp only [List.length_cons] at ih
      show 2 ≤ (if (c == sep) = true then [] :: h2 :: t else (c :: h2) :: t).length
      by_cases hc : (c == sep) = true
      · rw [if_pos hc]; simp
      · rw [if_neg hc]; simp only [List.length_cons]; omega

theorem getLastD_default_irrel {α : Type} (t : List α) (a b : α) (h : t ≠ []) :
    t.getLastD a = t.getLastD b := by
  cases t with
  | nil => exact absurd rfl h
  | cons x t2 => rw [List.getLastD_cons, List.getLastD_cons]

theorem splitOnChar_sep_getLastD (sep : Char) (l e : List Char) :
    (splitOnChar sep (l ++ sep :: e)).getLastD [] =
      (splitOnChar sep e).getLastD [] := by
  induction l with
  | nil =>
    simp only [List.nil_append, splitOnChar]
    cases h : splitOnChar sep e with
    | nil => exact absurd h (splitOnChar_ne_nil sep e)
    | cons h2 t =>
      show (if (sep == sep) = true then [] :: h2 :: t else (sep :: h2) :: t).getLastD [] =
        (h2 :: t).getLastD []
      rw [if_pos (by simp), List.getLastD_cons, List.getLastD_cons]
  | cons c rest ih =>
    simp only [List.cons_append, splitOnChar]
    cases h : splitOnChar sep (rest ++ sep :: e) with
    | nil => exact absurd h (splitOnChar_ne_nil sep _)
    | cons h2 t =>
      have hlen := splitOnChar_sep_length sep rest e
      rw [h] at ih hlen
      have ht : t ≠ [] := by
        intro hh
        rw [hh] at hlen
        simp at hlen
      show (if (c == sep) = true then [] :: h2 :: t else (c :: h2) :: t).getLastD [] =
        (splitOnChar sep e).getLastD []
      by_cases hc : (c == sep) = true
      · rw [if_pos hc, ← ih, List.getLastD_cons, List.getLastD_cons]
      · rw [if_neg hc, ← ih, List.getLastD_cons, List.getLastD_cons]
        exact getLastD_default_irrel t (c :: h2) h2 ht

theorem splitOnChar_no_sep (sep : Char) (e : List Char)
    (h : e.all (· != sep) = true) : splitOnChar sep e = [e] := by
  induction e with
  | nil => rfl
  | cons c rest ih =>
    simp only [List.all_cons, Bool.and_eq_true, bne_iff_ne] at h
    simp only [splitOnChar, ih h.2]
    show (if (c == sep) = true then [] :: rest :: [] else (c :: rest) :: []) = [c :: rest]
    rw [if_neg (by simpa using h.1)]

theorem pyEndsWith_decomp (s suffix : String) (h : pyEndsWith s suffix = true) :
    ∃ t, s.data = t ++ suffix.data := by
  obtain ⟨t, ht⟩ := List.isSuffixOf_iff_suffix.mp h
  exact ⟨t, ht.symm⟩

theorem last_extension_of_suffix (f : String) (e : List Char)
    (hs : e.all (· != '.') = true)
    (h : pyEndsWith (pyLower f) ⟨'.' :: e⟩ = true) :
    last_extension f = ⟨e⟩ := by
  obtain ⟨t, ht⟩ := pyEndsWith_decomp _ _ h
  unfold last_extension
  rw [ht, splitOnChar_sep_getLastD, splitOnChar_no_sep _ _ hs]
  rfl

theorem pyEndsWith_lower (f s : String) (h : pyEndsWith f s = true) :
    pyEndsWith (pyLower f) (pyLower s) = true := by
  obtain ⟨t, ht⟩ := pyEndsWith_decomp _ _ h
  unfold pyEndsWith pyLower
  apply List.isSuffixOf_iff_suffix.mpr
  refine ⟨t.map Char.toLower, ?_⟩
  simp [ht]

end Gpq

namespace Gpq

/-- Claim C4: for every destination path whose lowered extension is not one of the supported formats (duckdb, parquet, gpkg, fgb, geojson), given a nonempty result, both Worker.run implementations report the unsupported format error, execute no COPY statement, and stop the download without emitting finished. -/
theorem claim_C4 (w : WorkerInput) (env : WorkerEnv)
    (h0 : env.row_count ≠ 0)
    (hext : last_extension w.output_file ∉
      (["duckdb", "parquet", "gpkg", "fgb", "geojson"] : List String)) :
    Signal.error Utils.unsupported_msg ∈ (Utils.Worker.run w env).emitted ∧
    (Utils.Worker.run w env).copy_executed = false ∧
    Signal.finished ∉ (Utils.Worker.run w env).emitted ∧
    Signal.error Utils.unsupported_msg ∈ (Plugin.Worker.run w env).emitted ∧
    (Plugin.Worker.run w env).copy_executed = false ∧
    Signal.finished ∉ (Plugin.Worker.run w env).emitted := by
  simp only [List.mem_cons, List.not_mem_nil, or_false, not_or] at hext
  obtain ⟨hne1, hne2, hne3, hne4, hne5⟩ := hext
  have hd : (last_extension w.output_file == "duckdb") = false :=
    beq_eq_false_iff_ne.mpr hne1
  have hp : (last_extension w.output_file == "parquet") = false :=
    beq_eq_false_iff_ne.mpr hne2
  have hgpkg : pyEndsWith w.output_file ".gpkg" = false := by
    by_contra hcon
    have h1 : pyEndsWith w.output_file ".gpkg" = true := by simpa using hcon
    have h2 := pyEndsWith_lower _ _ h1
    have h3 : pyLower ".gpkg" = ".gpkg" := by decide
    rw [h3] at h2
    exact hne3 (last_extension_of_suffix w.output_file "gpkg".data (by decide) h2)
  have hfgb : pyEndsWith w.output_file ".fgb" = false := by
    by_contra hcon
    have h1 : pyEndsWith w.output_file ".fgb" = true := by simpa using hcon
    have h2 := pyEndsWith_lower _ _ h1
    have h3 : pyLower ".fgb" = ".fgb" := by decide
    rw [h3] at h2
    exact hne4 (last_extension_of_suffix w.output_file "fgb".data (by decide) h2)
  have hgeolow : pyEndsWith (pyLower w.output_file) ".geojson" = false := by
    by_contra hcon
    have h1 : pyEndsWith (pyLower w.output_file) ".geojson" = true := by simpa using hcon
    exact hne5 (last_extension_of_suffix w.output_file "geojson".data (by decide) h1)
  have hgeo : pyEndsWith w.output_file ".geojson" = false := by
    by_contra hcon
    have h1 : pyEndsWith w.output_file ".geojson" = true := by simpa using hcon
    have h2 := pyEndsWith_lower _ _ h1
    have h3 : pyLower ".geojson" = ".geojson" := by decide
    rw [h3] at h2
    rw [h2] at hgeolow
    simp at hgeolow
  have hpyin : pyIn "No data found" Plugin.unbound_local_msg = false := by decide
  cases hk : w.killed <;>
    simp [Utils.Worker.run, Utils.run_export_stage, Plugin.Worker.run,
      hd, hp, hgpkg, hfgb, hgeo, hgeolow, h0, hpyin, hk]

end Gpq

namespace Gpq

/-- Claim C1 counterexample: a download with result row count zero makes the utils.py Worker.run emit the no-data message through the error signal and no info signal, so the empty result is reported as an error there, contrary to the claim. -/
theorem claim_C1_counterexample :
    (Utils.Worker.run ⟨"https://example.com/buildings.parquet", "/tmp/out.gpkg",
        some "bbox", false, false⟩ ⟨[], 0, none⟩).emitted.any isError = true ∧
    (Utils.Worker.run ⟨"https://example.com/buildings.parquet", "/tmp/out.gpkg",
        some "bbox", false, false⟩ ⟨[], 0, none⟩).emitted.any isInfo = false ∧
    (Utils.Worker.run ⟨"https://example.com/buildings.parquet", "/tmp/out.gpkg",
        some "bbox", false, false⟩ ⟨[], 0, none⟩).copy_executed = false := by
  decide

/-- Claim C1 amended: on a zero row count both Workers perform no COPY and stop; the module-level Worker reports the informational no-data outcome and emits finished, while the utils.py Worker reports the same condition through the error signal. -/
theorem claim_C1_amended (w : WorkerInput) (env : WorkerEnv) (h : env.row_count = 0) :
    Signal.error Utils.no_data_msg ∈ (Utils.Worker.run w env).emitted ∧
    (Utils.Worker.run w env).emitted.any isInfo = false ∧
    (Utils.Worker.run w env).copy_executed = false ∧
    Signal.finished ∉ (Utils.Worker.run w env).emitted ∧
    Signal.info Plugin.no_data_msg ∈ (Plugin.Worker.run w env).emitted ∧
    Signal.finished ∈ (Plugin.Worker.run w env).emitted ∧
    (Plugin.Worker.run w env).emitted.any isError = false ∧
    (Plugin.Worker.run w env).copy_executed = false := by
  simp [Utils.Worker.run, Plugin.Worker.run, h, isInfo, isError]

/-- Witness for claim C1 amended at a concrete empty download. -/
theorem claim_C1_witness :
    Signal.error Utils.no_data_msg ∈
      (Utils.Worker.run ⟨"u", "o.fgb", some "bbox", false, false⟩ ⟨[], 0, none⟩).emitted ∧
    Signal.info Plugin.no_data_msg ∈
      (Plugin.Worker.run ⟨"u", "o.fgb", some "bbox", false, false⟩ ⟨[], 0, none⟩).emitted := by
  have h := claim_C1_amended ⟨"u", "o.fgb", some "bbox", false, false⟩ ⟨[], 0, none⟩ rfl
  exact ⟨h.1, h.2.2.2.2.1⟩

/-- Claim C2: with a detected (truthy) bbox column the WHERE clause is the conjunctive range predicate bounding only the bbox xmin and ymin minima by the normalized extent, otherwise the ST_Intersects predicate over the literal closed five-point ring of the extent corners; for extent (0,0,10,10) and column bbox the predicate requires bbox.xmin between 0 and 10 and bbox.ymin between 0 and 10. -/
theorem claim_C2 :
    (∀ (c : String) (bbox : Rect), pyTruthy c = true →
      Utils.build_where_clause (some c) bbox =
        WhereClause.bboxRange c bbox.xMin bbox.xMax bbox.yMin bbox.yMax) ∧
    (∀ bbox : Rect, Utils.build_where_clause none bbox =
      WhereClause.stIntersects [(bbox.xMin, bbox.yMin), (bbox.xMax, bbox.yMin),
        (bbox.xMax, bbox.yMax), (bbox.xMin, bbox.yMax), (bbox.xMin, bbox.yMin)]) ∧
    (∀ fx fy : ℚ,
      rangePredHolds (Utils.build_where_clause (some "bbox") ⟨0, 0, 10, 10⟩) fx fy ↔
        ((0 ≤ fx ∧ fx ≤ 10) ∧ (0 ≤ fy ∧ fy ≤ 10))) := by
  refine ⟨?_, ?_, ?_⟩
  · intro c bbox hc
    simp [Utils.build_where_clause, hc]
  · intro bbox
    rfl
  · intro fx fy
    have h : Utils.build_where_clause (some "bbox") ⟨0, 0, 10, 10⟩ =
        WhereClause.bboxRange "bbox" 0 10 0 10 := by decide
    rw [h]
    exact Iff.rfl

/-- Witness for claim C2 at the concrete extent of the specification. -/
theorem claim_C2_witness :
    Utils.build_where_clause (some "bbox") ⟨0, 0, 10, 10⟩ =
      WhereClause.bboxRange "bbox" 0 10 0 10 :=
  claim_C2.1 "bbox" ⟨0, 0, 10, 10⟩ (by decide)

/-- Claim C5 counterexample: the utils.py query builder prepends the synthetic name column for an Overture URL even though the schema has no names column, contrary to the claim that both conditions are required. -/
theorem claim_C5_counterexample :
    Utils.build_select_query "out.gpkg"
      "s3://overturemaps-us-west-2/release/2025-01-22.0/theme=buildings/type=building/*"
      [⟨"id", "VARCHAR"⟩] = SelectQuery.withName [SelectEntry.plain "id"] := by
  decide

/-- Claim C5 amended: for non-parquet targets the utils.py builder prepends the synthetic name column exactly when the URL contains overture, while the module-level builder additionally requires some schema column name to contain names as a substring; parquet targets never receive the synthetic column. -/
theorem claim_C5_amended (f url : String) (schema : List SchemaColumn) :
    (Utils.build_select_query f url schema).hasSyntheticName =
      (!pyEndsWith f ".parquet" && pyIn "overture" url) ∧
    (Plugin.build_select_query f url schema).hasSyntheticName =
      (!pyEndsWith f ".parquet" &&
        (pyIn "overture" url && schema.any (fun r => pyIn "names" r.name))) := by
  constructor
  · cases hp : pyEndsWith f ".parquet" <;>
      cases ho : pyIn "overture" url <;>
        simp [Utils.build_select_query, hp, ho, SelectQuery.hasSyntheticName]
  · cases hp : pyEndsWith f ".parquet" <;>
      cases ho : (pyIn "overture" url && schema.any (fun r => pyIn "names" r.name)) <;>
        simp [Plugin.build_select_query, hp, ho, SelectQuery.hasSyntheticName]

/-- Claim C9 counterexample: with the kill flag already set, an empty result still makes the utils.py Worker emit the no-data error signal, so cancellation does not suppress every later error emission. -/
theorem claim_C9_counterexample :
    (Utils.Worker.run ⟨"https://example.com/d.parquet", "killed.gpkg",
        some "bbox", true, false⟩ ⟨[], 0, none⟩).emitted.any isError = true := by
  decide

/-- Claim C9 amended: once the kill flag is set neither Worker emits the completion info, load_layer or finished signals (the module-level Worker still emits info and finished on the empty-result path), the only error signals still emitted are the unguarded empty-result and unsupported-format messages, and the cleanup path always runs. -/
theorem claim_C9_amended (w : WorkerInput) (env : WorkerEnv) (hk : w.killed = true) :
    ((Utils.Worker.run w env).cleanup_ran = true ∧
     (Utils.Worker.run w env).emitted.any isInfo = false ∧
     (Utils.Worker.run w env).emitted.any isFinished = false ∧
     (Utils.Worker.run w env).emitted.any isLoadLayerSig = false ∧
     (∀ m, Signal.error m ∈ (Utils.Worker.run w env).emitted →
        m = Utils.no_data_msg ∨ m = Utils.unsupported_msg)) ∧
    ((Plugin.Worker.run w env).cleanup_ran = true ∧
     (Plugin.Worker.run w env).emitted.any isLoadLayerSig = false ∧
     (∀ m, Signal.error m ∈ (Plugin.Worker.run w env).emitted →
        m = Utils.unsupported_msg) ∧
     (∀ m, Signal.info m ∈ (Plugin.Worker.run w env).emitted →
        m = Plugin.no_data_msg) ∧
     (Signal.finished ∈ (Plugin.Worker.run w env).emitted → env.row_count = 0)) := by
  constructor
  · by_cases h0 : env.row_count = 0
    · simp [Utils.Worker.run, h0, hk, isInfo, isFinished, isLoadLayerSig]
    · by_cases hdk : (last_extension w.output_file == "duckdb") = true
      · simp [Utils.Worker.run, h0, hdk, hk, isInfo, isFinished, isLoadLayerSig]
      · by_cases hgj : pyEndsWith (pyLower w.output_file) ".geojson" = true
        · by_cases hwarn : (Utils.estimate_file_size env.row_count env.avg_feature_size > 4096 ∧
              w.size_warning_accepted = false)
          · simp [Utils.Worker.run, h0, hdk, hgj, hwarn, hk, isInfo, isFinished, isLoadLayerSig]
          · by_cases hfmt : ((last_extension w.output_file == "parquet") ||
                pyEndsWith w.output_file ".gpkg" || pyEndsWith w.output_file ".fgb" ||
                pyEndsWith w.output_file ".geojson") = true
            · simp [Utils.Worker.run, Utils.run_export_stage, h0, hdk, hgj, hwarn, hfmt, hk,
                isInfo, isFinished, isLoadLayerSig]
            · simp [Utils.Worker.run, Utils.run_export_stage, h0, hdk, hgj, hwarn, hfmt, hk,
                isInfo, isFinished, isLoadLayerSig]
        · by_cases hfmt : ((last_extension w.output_file == "parquet") ||
              pyEndsWith w.output_file ".gpkg" || pyEndsWith w.output_file ".fgb" ||
              pyEndsWith w.output_file ".geojson") = true
          · simp [Utils.Worker.run, Utils.run_export_stage, h0, hdk, hgj, hfmt, hk,
              isInfo, isFinished, isLoadLayerSig]
          · simp [Utils.Worker.run, Utils.run_export_stage, h0, hdk, hgj, hfmt, hk,
              isInfo, isFinished, isLoadLayerSig]
  · by_cases h0 : env.row_count = 0
    · simp [Plugin.Worker.run, h0, hk, isLoadLayerSig]
    · by_cases hdk : (last_extension w.output_file == "duckdb") = true
      · simp [Plugin.Worker.run, h0, hdk, hk, isLoadLayerSig]
      · by_cases hfmt : ((last_extension w.output_file == "parquet") ||
            pyEndsWith w.output_file ".gpkg" || pyEndsWith w.output_file ".fgb") = true
        · simp [Plugin.Worker.run, h0, hdk, hfmt, hk, isLoadLayerSig]
        · simp [Plugin.Worker.run, h0, hdk, hfmt, hk, isLoadLayerSig]

/-- Witness for claim C9 amended at a concrete killed run. -/
theorem claim_C9_witness :
    (Utils.Worker.run ⟨"u", "o.duckdb", some "bbox", true, false⟩
      ⟨[], 5, none⟩).emitted.any isInfo = false := by
  have h := claim_C9_amended ⟨"u", "o.duckdb", some "bbox", true, false⟩ ⟨[], 5, none⟩ rfl
  exact h.1.2.1

end Gpq

namespace Gpq

/-- Helper: when every metadata entry carries a malformed blob, the scan of check_bbox_metadata swallows each parse failure and returns none. -/
theorem check_bbox_metadata_all_malformed :
    ∀ (entries : List MetaEntry), (∀ e ∈ entries, e.value = GeoBlob.malformed) →
      Utils.check_bbox_metadata entries = none := by
  intro entries
  induction entries with
  | nil => intro _; rfl
  | cons e rest ih =>
    intro h
    have he := h e (by simp)
    have hrest := fun x hx => h x (List.mem_cons_of_mem _ hx)
    simp [Utils.check_bbox_metadata, he, ih hrest]

/-- Claim C3: a dataset URL whose first preset match is pre-validated short-circuits to a successful result with bbox column bbox and no schema or metadata probing; otherwise a probed schema containing a column literally named bbox with a struct type is selected without fetching or parsing the geo metadata. -/
theorem claim_C3 :
    (∀ (presets : List Preset) (url : String) (env : VEnv),
      Utils.needs_validation presets url = false →
      (Utils.ValidationWorker.run presets url env).events =
        [VEvent.progress "Connecting to data source...",
         VEvent.finishedSig true "Validation successful" ⟨true, some "bbox", false⟩] ∧
      (Utils.ValidationWorker.run presets url env).schema_probed = false ∧
      (Utils.ValidationWorker.run presets url env).metadata_probed = false) ∧
    (∀ (presets : List Preset) (url : String) (env : VEnv),
      Utils.needs_validation presets url = true →
      (∃ r ∈ env.schema, r.name = "bbox" ∧ pyIn "struct" (pyLower r.colType) = true) →
      VEvent.finishedSig true "Validation successful" ⟨true, some "bbox", true⟩ ∈
        (Utils.ValidationWorker.run presets url env).events ∧
      (Utils.ValidationWorker.run presets url env).metadata_probed = false) := by
  constructor
  · intro presets url env h
    simp [Utils.ValidationWorker.run, h]
  · intro presets url env h hex
    have hany : env.schema.any (fun r =>
        pyLower r.name == "bbox" && pyIn "struct" (pyLower r.colType)) = true := by
      obtain ⟨r, hr, hn, ht⟩ := hex
      apply List.any_eq_true.mpr
      refine ⟨r, hr, ?_⟩
      have hb : pyLower "bbox" = "bbox" := by decide
      rw [hn, hb]
      simp [ht]
    simp [Utils.ValidationWorker.run, h, hany]

/-- Witness for claim C3 at a concrete preset URL and a concrete bbox schema. -/
theorem claim_C3_witness :
    (Utils.ValidationWorker.run Plugin.PRESET_DATASETS
      "https://data.source.coop/planet/eu-field-boundaries/field_boundaries.parquet"
      ⟨[], []⟩).schema_probed = false ∧
    (Utils.ValidationWorker.run []
      "https://example.com/custom.parquet"
      ⟨[⟨"bbox", "STRUCT(xmin DOUBLE, xmax DOUBLE, ymin DOUBLE, ymax DOUBLE)"⟩], []⟩).metadata_probed = false := by
  constructor
  · exact (claim_C3.1 Plugin.PRESET_DATASETS
      "https://data.source.coop/planet/eu-field-boundaries/field_boundaries.parquet"
      ⟨[], []⟩ (by decide)).2.1
  · exact (claim_C3.2 [] "https://example.com/custom.parquet"
      ⟨[⟨"bbox", "STRUCT(xmin DOUBLE, xmax DOUBLE, ymin DOUBLE, ymax DOUBLE)"⟩], []⟩
      (by decide)
      ⟨⟨"bbox", "STRUCT(xmin DOUBLE, xmax DOUBLE, ymin DOUBLE, ymax DOUBLE)"⟩,
        by simp, rfl, by decide⟩).2

/-- Claim C6: when every geo metadata entry is malformed the detector returns none instead of raising, and the validation run only degrades to the bbox warning, emitting nothing on finished. -/
theorem claim_C6 (entries : List MetaEntry)
    (h : ∀ e ∈ entries, e.value = GeoBlob.malformed) :
    Utils.check_bbox_metadata entries = none ∧
    (∀ (presets : List Preset) (url : String) (schema : List SchemaColumn),
      Utils.needs_validation presets url = true →
      schema.any (fun r =>
        pyLower r.name == "bbox" && pyIn "struct" (pyLower r.colType)) = false →
      VEvent.needsBboxWarning ∈
        (Utils.ValidationWorker.run presets url ⟨schema, entries⟩).events ∧
      (∀ b m d, VEvent.finishedSig b m d ∉
        (Utils.ValidationWorker.run presets url ⟨schema, entries⟩).events)) := by
  have hnone := check_bbox_metadata_all_malformed entries h
  refine ⟨hnone, ?_⟩
  intro presets url schema hv hany
  constructor
  · simp [Utils.ValidationWorker.run, hv, hany, hnone]
  · intro b m d
    simp [Utils.ValidationWorker.run, hv, hany, hnone]

/-- Witness for claim C6 at a concrete malformed metadata entry. -/
theorem claim_C6_witness :
    Utils.check_bbox_metadata [⟨"geo", GeoBlob.malformed⟩] = none ∧
    VEvent.needsBboxWarning ∈
      (Utils.ValidationWorker.run [] "https://example.com/custom.parquet"
        ⟨[], [⟨"geo", GeoBlob.malformed⟩]⟩).events := by
  constructor
  · exact (claim_C6 [⟨"geo", GeoBlob.malformed⟩] (by decide)).1
  · exact ((claim_C6 [⟨"geo", GeoBlob.malformed⟩] (by decide)).2
      [] "https://example.com/custom.parquet" [] rfl rfl).1


end Gpq

namespace Gpq

/-- Claim C7: for row count N positive and truthy sampled average A the size estimate is exactly (N times A plus 50 plus N minus 1) over 1048576 megabytes; for A 200 and N 10000 this is 2010049 over 1048576, about 1.92 MB, below the 4096 threshold, so the GeoJSON export proceeds with no size warning and the COPY executes. -/
theorem claim_C7 :
    (∀ (n : Nat) (a : ℚ), 0 < n → a ≠ 0 →
      Utils.estimate_file_size n (some a) =
        ((n : ℚ) * a + 50 + ((n - 1 : Nat) : ℚ)) / 1048576) ∧
    Utils.estimate_file_size 10000 (some 200) = 2010049 / 1048576 ∧
    ¬(Utils.estimate_file_size 10000 (some 200) > 4096) ∧
    (Utils.Worker.run ⟨"https://example.com/d.parquet", "out.geojson", some "bbox",
        false, false⟩ ⟨[], 10000, some 200⟩).emitted.any isSizeWarning = false ∧
    (Utils.Worker.run ⟨"https://example.com/d.parquet", "out.geojson", some "bbox",
        false, false⟩ ⟨[], 10000, some 200⟩).copy_executed = true := by
  have hformula : ∀ (n : Nat) (a : ℚ), 0 < n → a ≠ 0 →
      Utils.estimate_file_size n (some a) =
        ((n : ℚ) * a + 50 + ((n - 1 : Nat) : ℚ)) / 1048576 := by
    intro n a hn ha
    simp only [Utils.estimate_file_size]
    rw [if_pos (lt_min_iff.mpr ⟨by norm_num, hn⟩)]
    show (if a ≠ 0 then ((n : ℚ) * a + 50 + ((n - 1 : Nat) : ℚ)) / (1024 * 1024) else 0) = _
    rw [if_pos ha]
    norm_num
  have hval : Utils.estimate_file_size 10000 (some 200) = 2010049 / 1048576 := by
    rw [hformula 10000 200 (by norm_num) (by norm_num)]
    norm_num
  have hle : ¬(Utils.estimate_file_size 10000 (some 200) > 4096) := by
    rw [hval]
    norm_num
  refine ⟨hformula, hval, hle, ?_, ?_⟩ <;>
  · have e1 : (last_extension "out.geojson" == "duckdb") = false := by decide
    have e2 : pyEndsWith (pyLower "out.geojson") ".geojson" = true := by decide
    have e3 : ¬((2010049 / 1048576 : ℚ) > 4096 ∧ (false = false)) := by norm_num
    have e4 : (last_extension "out.geojson" == "parquet") = false := by decide
    have e5 : pyEndsWith "out.geojson" ".gpkg" = false := by decide
    have e6 : pyEndsWith "out.geojson" ".fgb" = false := by decide
    have e7 : pyEndsWith "out.geojson" ".geojson" = true := by decide
    have e8 : pyEndsWith (pyLower "out.geojson") ".duckdb" = false := by decide
    simp only [Utils.Worker.run, Utils.run_export_stage, hval, e1, e2, e3, e4, e5, e6, e7, e8]
    norm_num [isSizeWarning]

/-- Witness for claim C7 at a concrete small row count and average. -/
theorem claim_C7_witness :
    Utils.estimate_file_size 3 (some 2) =
      ((3 : ℚ) * 2 + 50 + ((3 - 1 : Nat) : ℚ)) / 1048576 :=
  claim_C7.1 3 2 (by norm_num) (by norm_num)

/-- Claim C8: a parquet destination leaves the SELECT list untouched as SELECT star; otherwise the builder produces one SELECT entry per schema column in schema order, with struct or map types coerced to a JSON string, array types flattened to a delimited string, UTINYINT widened to INTEGER, and every other column passed through unchanged. -/
theorem claim_C8 :
    (∀ (f url : String) (schema : List SchemaColumn), pyEndsWith f ".parquet" = true →
      Utils.build_select_query f url schema = SelectQuery.star) ∧
    (∀ schema : List SchemaColumn,
      (Utils.process_schema_columns schema).length = schema.length) ∧
    (∀ (schema : List SchemaColumn) (i : Nat),
      (Utils.process_schema_columns schema)[i]? =
        (schema[i]?).map Utils.process_column) ∧
    (∀ r : SchemaColumn,
      (pyIn "STRUCT" (pyUpper r.colType) || pyIn "MAP" (pyUpper r.colType)) = true →
      Utils.process_column r = SelectEntry.toJson r.name) ∧
    (∀ r : SchemaColumn,
      (pyIn "STRUCT" (pyUpper r.colType) || pyIn "MAP" (pyUpper r.colType)) = false →
      pyIn "[]" r.colType = true →
      Utils.process_column r = SelectEntry.arrayToString r.name) ∧
    (∀ r : SchemaColumn,
      (pyIn "STRUCT" (pyUpper r.colType) || pyIn "MAP" (pyUpper r.colType)) = false →
      pyIn "[]" r.colType = false →
      (pyUpper r.colType == "UTINYINT") = true →
      Utils.process_column r = SelectEntry.castInteger r.name) ∧
    (∀ r : SchemaColumn,
      (pyIn "STRUCT" (pyUpper r.colType) || pyIn "MAP" (pyUpper r.colType)) = false →
      pyIn "[]" r.colType = false →
      (pyUpper r.colType == "UTINYINT") = false →
      Utils.process_column r = SelectEntry.plain r.name) := by
  refine ⟨?_, ?_, ?_, ?_, ?_, ?_, ?_⟩
  · intro f url schema h
    simp [Utils.build_select_query, h]
  · intro schema
    simp [Utils.process_schema_columns]
  · intro schema i
    simp [Utils.process_schema_columns, List.getElem?_map]
  · intro r h
    simp [Utils.process_column, h]
  · intro r h1 h2
    simp [Utils.process_column, h1, h2]
  · intro r h1 h2 h3
    simp [Utils.process_column, h1, h2, h3]
  · intro r h1 h2 h3
    simp [Utils.process_column, h1, h2, h3]

/-- Witness for claim C8 at one concrete column of each kind. -/
theorem claim_C8_witness :
    Utils.build_select_query "data.parquet" "https://example.com/d.parquet" [] =
      SelectQuery.star ∧
    Utils.process_column ⟨"names", "STRUCT(primary VARCHAR)"⟩ =
      SelectEntry.toJson "names" ∧
    Utils.process_column ⟨"tags", "VARCHAR[]"⟩ = SelectEntry.arrayToString "tags" ∧
    Utils.process_column ⟨"level", "UTINYINT"⟩ = SelectEntry.castInteger "level" ∧
    Utils.process_column ⟨"id", "VARCHAR"⟩ = SelectEntry.plain "id" :=
  ⟨claim_C8.1 "data.parquet" "https://example.com/d.parquet" [] (by decide),
   claim_C8.2.2.2.1 ⟨"names", "STRUCT(primary VARCHAR)"⟩ (by decide),
   claim_C8.2.2.2.2.1 ⟨"tags", "VARCHAR[]"⟩ (by decide) (by decide),
   claim_C8.2.2.2.2.2.1 ⟨"level", "UTINYINT"⟩ (by decide) (by decide) (by decide),
   claim_C8.2.2.2.2.2.2 ⟨"id", "VARCHAR"⟩ (by decide) (by decide) (by decide)⟩

/-- Claim C10: every result dictionary the ValidationWorker emits through finished with success true has has_bbox true and a non-null bbox column, and a dataset in which no usable bbox is found triggers the bbox warning and emits nothing on finished. -/
theorem claim_C10 (presets : List Preset) (url : String) (env : VEnv) :
    (∀ m d, VEvent.finishedSig true m d ∈
        (Utils.ValidationWorker.run presets url env).events →
      d.has_bbox = true ∧ ∃ c, d.bbox_column = some c) ∧
    (Utils.needs_validation presets url = true →
     env.schema.any (fun r =>
       pyLower r.name == "bbox" && pyIn "struct" (pyLower r.colType)) = false →
     pyTruthy ((Utils.check_bbox_metadata env.metadata).getD "") = false →
     VEvent.needsBboxWarning ∈ (Utils.ValidationWorker.run presets url env).events ∧
     (∀ b m d, VEvent.finishedSig b m d ∉
        (Utils.ValidationWorker.run presets url env).events)) := by
  constructor
  · intro m d
    cases hv : Utils.needs_validation presets url with
    | false =>
      simp only [Utils.ValidationWorker.run, hv]
      intro hmem
      simp at hmem
      obtain ⟨-, hd⟩ := hmem
      rw [hd]
      exact ⟨rfl, "bbox", rfl⟩
    | true =>
      cases hany : env.schema.any (fun r =>
          pyLower r.name == "bbox" && pyIn "struct" (pyLower r.colType)) with
      | true =>
        simp only [Utils.ValidationWorker.run, hv, hany]
        intro hmem
        simp at hmem
        obtain ⟨-, hd⟩ := hmem
        rw [hd]
        exact ⟨rfl, "bbox", rfl⟩
      | false =>
        cases hc : Utils.check_bbox_metadata env.metadata with
        | none =>
          simp only [Utils.ValidationWorker.run, hv, hany, hc]
          intro hmem
          simp at hmem
        | some c =>
          cases ht : pyTruthy c with
          | false =>
            simp only [Utils.ValidationWorker.run, hv, hany, hc, ht]
            intro hmem
            simp at hmem
          | true =>
            simp only [Utils.ValidationWorker.run, hv, hany, hc, ht]
            intro hmem
            simp at hmem
            obtain ⟨-, hd⟩ := hmem
            rw [hd]
            exact ⟨rfl, c, rfl⟩
  · intro hv hany htr
    cases hc : Utils.check_bbox_metadata env.metadata with
    | none =>
      constructor
      · simp [Utils.ValidationWorker.run, hv, hany, hc]
      · intro b m d
        simp [Utils.ValidationWorker.run, hv, hany, hc]
    | some c =>
      rw [hc] at htr
      simp only [Option.getD_some] at htr
      constructor
      · simp [Utils.ValidationWorker.run, hv, hany, hc, htr]
      · intro b m d
        simp [Utils.ValidationWorker.run, hv, hany, hc, htr]

/-- Witness for claim C10 at a concrete dataset with no usable bbox. -/
theorem claim_C10_witness :
    VEvent.needsBboxWarning ∈
      (Utils.ValidationWorker.run [] "https://example.com/nobbox.parquet"
        ⟨[], []⟩).events :=
  ((claim_C10 [] "https://example.com/nobbox.parquet" ⟨[], []⟩).2 rfl rfl (by decide)).1

end Gpq

namespace Gpq

/-- Witness for claim C4 at a concrete xyz destination. -/
theorem claim_C4_witness :
    Signal.error Utils.unsupported_msg ∈
      (Utils.Worker.run ⟨"https://example.com/d.parquet", "out.xyz", some "bbox",
        false, false⟩ ⟨[], 5, none⟩).emitted :=
  (claim_C4 ⟨"https://example.com/d.parquet", "out.xyz", some "bbox", false, false⟩
    ⟨[], 5, none⟩ (by decide) (by decide)).1

end Gpq
